import Mathlib

/-!
Verification of the physics core of the 2D-Collision-Simulator repository.

The repository holds three Python scripts that implement variants of the same
discrete 2D particle simulation:
  * `2D_Collisions.py`  — particles with mass; vector-projection collision
    response; `Vector`, `Particle` (move / follow / collide / _push_apart /
    _overlap_amount / _is_colliding / _bounce / _apply_drag /
    _apply_elasticity / _recalculate_speed_components) and `Simulation`.
  * `my_physics2.py`    — massless particles with gravity; angle-reflection
    collision response.
  * `bouncing.py`       — the bare bouncing tutorial.

Python floats are modelled as exact real numbers.  `math.hypot x y` is
`Real.sqrt (x^2 + y^2)`, `math.atan2 y x` is `Complex.arg ⟨x, y⟩` (both agree
with the C library functions on all real inputs).  Python raises
`ZeroDivisionError` on `x / 0.0`; every spot where the scripts can divide by
zero is therefore embedded with an explicit `Option`, `none` standing for the
raised exception.  All other code paths are total and are embedded as plain
functions.
-/

noncomputable section

open Classical Real

/-- Embeds `math.atan2 y x`: the argument of the complex number `x + y*I`.
This matches the C `atan2` on every input, including `atan2 0 0 = 0`. -/
def atan2 (y x : ℝ) : ℝ := Complex.arg ⟨x, y⟩

/-- Embeds `math.hypot x y = sqrt (x² + y²)`. -/
def hypot (x y : ℝ) : ℝ := Real.sqrt (x ^ 2 + y ^ 2)

lemma hypot_nonneg (x y : ℝ) : 0 ≤ hypot x y := Real.sqrt_nonneg _

lemma hypot_sq (x y : ℝ) : hypot x y ^ 2 = x ^ 2 + y ^ 2 :=
  Real.sq_sqrt (by positivity)

lemma hypot_eq_zero_iff {x y : ℝ} : hypot x y = 0 ↔ x = 0 ∧ y = 0 := by
  constructor
  · intro h
    have h0 : x ^ 2 + y ^ 2 ≤ 0 := Real.sqrt_eq_zero'.mp h
    constructor <;> nlinarith [sq_nonneg x, sq_nonneg y]
  · rintro ⟨hx, hy⟩
    simp [hypot, hx, hy]

lemma complex_abs_mk (x y : ℝ) : Complex.abs ⟨x, y⟩ = hypot x y := by
  rw [Complex.abs_apply, Complex.normSq_mk, hypot]
  ring_nf

lemma mk_ne_zero_of_hypot {x y : ℝ} (h : hypot x y ≠ 0) :
    (⟨x, y⟩ : ℂ) ≠ 0 := by
  intro h0
  apply h
  have hx : x = 0 := congrArg Complex.re h0
  have hy : y = 0 := congrArg Complex.im h0
  simp [hypot, hx, hy]

/-- Fact: `cos (atan2 y x) = x / hypot x y` whenever the hypotenuse is nonzero. -/
lemma cos_atan2 {x y : ℝ} (h : hypot x y ≠ 0) :
    Real.cos (atan2 y x) = x / hypot x y := by
  rw [atan2, Complex.cos_arg (mk_ne_zero_of_hypot h), complex_abs_mk]

/-- Fact: `sin (atan2 y x) = y / hypot x y`; this one needs no side condition. -/
lemma sin_atan2 (x y : ℝ) :
    Real.sin (atan2 y x) = y / hypot x y := by
  rw [atan2, Complex.sin_arg, complex_abs_mk]

/-- Round trip: converting a velocity vector to (angle, speed) form and back
gives the original x component. -/
lemma cos_atan2_mul_hypot (x y : ℝ) :
    Real.cos (atan2 y x) * hypot x y = x := by
  by_cases h : hypot x y = 0
  · obtain ⟨hx, hy⟩ := hypot_eq_zero_iff.mp h
    rw [h, mul_zero, hx]
  · rw [cos_atan2 h, div_mul_cancel₀ _ h]

/-- Round trip for the y component. -/
lemma sin_atan2_mul_hypot (x y : ℝ) :
    Real.sin (atan2 y x) * hypot x y = y := by
  by_cases h : hypot x y = 0
  · obtain ⟨hx, hy⟩ := hypot_eq_zero_iff.mp h
    rw [h, mul_zero, hy]
  · rw [sin_atan2, div_mul_cancel₀ _ h]

/-- Fact: `atan2` of the negated vector has negated cosine (nonzero vector). -/
lemma cos_atan2_neg {x y : ℝ} (h : hypot x y ≠ 0) :
    Real.cos (atan2 (-y) (-x)) = -Real.cos (atan2 y x) := by
  have hn : hypot (-x) (-y) = hypot x y := by simp [hypot]
  rw [cos_atan2 (by rw [hn]; exact h), cos_atan2 h, hn, neg_div]

/-- Fact: `atan2` of the negated vector has negated sine. -/
lemma sin_atan2_neg (x y : ℝ) :
    Real.sin (atan2 (-y) (-x)) = -Real.sin (atan2 y x) := by
  have hn : hypot (-x) (-y) = hypot x y := by simp [hypot]
  rw [sin_atan2, sin_atan2, hn, neg_div]

namespace Sim2D

/-! ### `2D_Collisions.py` -/

/-- Simulation constant `ELASTICITY_COEFFICIENT = 0.8`. -/
def ELASTICITY_COEFFICIENT : ℝ := 0.8

/-- Simulation constant `DRAG_COEFFICIENT = 0.9999`. -/
def DRAG_COEFFICIENT : ℝ := 0.9999

/-- Simulation constant `MOUSE_FLING_COEFFICIENT = 0.1`. -/
def MOUSE_FLING_COEFFICIENT : ℝ := 0.1

/-- Class `Vector`: a 2D vector, `.1` is `_x_comp`, `.2` is `_y_comp`. -/
abbrev Vec := ℝ × ℝ

/-- Embeds `Vector.magnitude`: `math.hypot(x, y)`. -/
def Vec.magnitude (v : Vec) : ℝ := hypot v.1 v.2

/-- Embeds `Vector.unit`: divide the components by the magnitude.  In Python this
raises `ZeroDivisionError` when the magnitude is `0`; callers of this
embedding are responsible for checking that case (they return `none`). -/
def Vec.unit (v : Vec) : Vec := (v.1 / v.magnitude, v.2 / v.magnitude)

/-- Embeds `Vector.__mul__` between two vectors: the dot product. -/
def Vec.dot (v w : Vec) : ℝ := v.1 * w.1 + v.2 * w.2

/-- Embeds `Vector.__mul__` between a vector and a scalar. -/
def Vec.smul (v : Vec) (k : ℝ) : Vec := (v.1 * k, v.2 * k)

/-- Embeds `Vector.__add__`. -/
def Vec.vadd (v w : Vec) : Vec := (v.1 + w.1, v.2 + w.2)

/-- Class `Particle` of `2D_Collisions.py`.  `vx`/`vy` are the cached
`_speed_x`/`_speed_y` velocity components. -/
@[ext] structure Particle where
  x : ℝ
  y : ℝ
  color : ℝ × ℝ × ℝ
  mass : ℝ
  radius : ℝ
  vx : ℝ
  vy : ℝ
  speed : ℝ
  angle : ℝ

/-- Embeds `Particle.__init__`: store position, color, mass, radius, and derive the
velocity components from `speed` and `angle`.  No input is validated. -/
def particleInit (position : ℝ × ℝ) (mass radius speed angle : ℝ)
    (color : ℝ × ℝ × ℝ) : Particle :=
  { x := position.1
    y := position.2
    color := color
    mass := mass
    radius := radius
    vx := Real.cos angle * speed
    vy := Real.sin angle * speed
    speed := speed
    angle := angle }

/-- Embeds `Particle._recalculate_speed_components(new_angle, speed_coefficient)`.
`speed_coefficient=None` is the default; Python's `if speed_coefficient:`
is falsy both for `None` and for `0.0`, so the speed is scaled only by a
nonzero coefficient. -/
def recalc (p : Particle) (newAngle : ℝ) (coeff : Option ℝ) : Particle :=
  let s : ℝ :=
    match coeff with
    | none => p.speed
    | some k => if k = 0 then p.speed else p.speed * k
  { p with
    speed := s
    angle := newAngle
    vx := Real.cos newAngle * s
    vy := Real.sin newAngle * s }

/-- Embeds `Particle._apply_drag`. -/
def applyDrag (d : ℝ) (p : Particle) : Particle := recalc p p.angle (some d)

/-- Embeds `Particle._apply_elasticity`. -/
def applyElasticity (e : ℝ) (p : Particle) : Particle :=
  recalc p p.angle (some e)

/-- Embeds `Particle._overlap_amount(p2)`. -/
def overlapAmount (p1 p2 : Particle) : ℝ :=
  (p1.radius + p2.radius) - hypot (p1.x - p2.x) (p1.y - p2.y)

/-- Embeds `Particle._is_colliding(p2)`. -/
def isColliding (p1 p2 : Particle) : Prop := 0 < overlapAmount p1 p2

/-- Embeds `Particle._bounce(surface)`: a single `if/elif` chain over the four
walls, in the order top, bottom, left, right; at most one wall is handled
per call, and elasticity is applied only when some wall was hit. -/
def bounce (e w h : ℝ) (p : Particle) : Particle :=
  if p.y ≤ p.radius then
    applyElasticity e
      { recalc p (-p.angle) none with y := p.y + 2 * (p.radius - p.y) }
  else if p.y ≥ h - p.radius then
    applyElasticity e
      { recalc p (-p.angle) none with y := p.y - 2 * (p.y + p.radius - h) }
  else if p.x ≤ p.radius then
    applyElasticity e
      { recalc p (Real.pi - p.angle) none with x := p.x + 2 * (p.radius - p.x) }
  else if p.x ≥ w - p.radius then
    applyElasticity e
      { recalc p (Real.pi - p.angle) none with x := p.x - 2 * (p.x + p.radius - w) }
  else p

/-- Embeds `Particle.move(surface)`: translate by the velocity components, bounce
off the window edges, then apply drag. -/
def move (e d w h : ℝ) (p : Particle) : Particle :=
  applyDrag d (bounce e w h { p with x := p.x + p.vx, y := p.y + p.vy })

/-- Embeds `Particle.follow(mouse_coordinates)`. -/
def follow (coords : ℝ × ℝ) (p : Particle) : Particle :=
  let dx := coords.1 - p.x
  let dy := coords.2 - p.y
  recalc { p with speed := hypot dx dy } (atan2 dy dx)
    (some MOUSE_FLING_COEFFICIENT)

/-- Embeds `n_vec` in `Particle.collide`: difference of the centre coordinates. -/
def n_vec (p1 p2 : Particle) : Vec := (p1.x - p2.x, p1.y - p2.y)

/-- Embeds `t_vec` in `Particle.collide`: the perpendicular of `n_vec`. -/
def t_vec (p1 p2 : Particle) : Vec := (-(n_vec p1 p2).2, (n_vec p1 p2).1)

/-- Embeds `p1_initial_vec` / `p2_initial_vec`: the cached velocity components. -/
def initialVec (p : Particle) : Vec := (p.vx, p.vy)

/-- Embeds `p1_final_norm_comp`: Newton's 1-D elastic collision formula applied to
the normal components. -/
def p1_final_norm_comp (p1 p2 : Particle) : ℝ :=
  (Vec.dot (initialVec p1) (Vec.unit (n_vec p1 p2)) * (p1.mass - p2.mass)
      + 2 * p2.mass * Vec.dot (initialVec p2) (Vec.unit (n_vec p1 p2)))
    / (p1.mass + p2.mass)

/-- Embeds `p2_final_norm_comp`. -/
def p2_final_norm_comp (p1 p2 : Particle) : ℝ :=
  (Vec.dot (initialVec p2) (Vec.unit (n_vec p1 p2)) * (p2.mass - p1.mass)
      + 2 * p1.mass * Vec.dot (initialVec p1) (Vec.unit (n_vec p1 p2)))
    / (p1.mass + p2.mass)

/-- Embeds `p1_final_vec`: recomposition of the updated normal component and the
unchanged tangential component. -/
def p1_final_vec (p1 p2 : Particle) : Vec :=
  Vec.vadd (Vec.smul (Vec.unit (n_vec p1 p2)) (p1_final_norm_comp p1 p2))
    (Vec.smul (Vec.unit (t_vec p1 p2))
      (Vec.dot (initialVec p1) (Vec.unit (t_vec p1 p2))))

/-- Embeds `p2_final_vec`. -/
def p2_final_vec (p1 p2 : Particle) : Vec :=
  Vec.vadd (Vec.smul (Vec.unit (n_vec p1 p2)) (p2_final_norm_comp p1 p2))
    (Vec.smul (Vec.unit (t_vec p1 p2))
      (Vec.dot (initialVec p2) (Vec.unit (t_vec p1 p2))))

/-- The tail of `Particle.collide`: store the final vector back into
(angle, speed) form: `speed = magnitude`, `angle = atan2`, then
`_recalculate_speed_components(angle)`. -/
def setVelFromVec (p : Particle) (v : Vec) : Particle :=
  recalc { p with speed := v.magnitude } (atan2 v.2 v.1) none

/-- Embeds `Particle._push_apart(p2)`: move each particle by the full overlap
along the collision angle (this particle away from `p2`, `p2` the other
way). -/
def pushApart (p1 p2 : Particle) : Particle × Particle :=
  let dist := overlapAmount p1 p2
  let collisionAngle := atan2 (p1.y - p2.y) (p1.x - p2.x)
  ({ p1 with
      x := p1.x + Real.cos collisionAngle * dist
      y := p1.y + Real.sin collisionAngle * dist },
   { p2 with
      x := p2.x - Real.cos collisionAngle * dist
      y := p2.y - Real.sin collisionAngle * dist })

/-- Embeds `Particle.collide(p2)`.  If the particles overlap, the normal unit
vector is built (Python divides by `n_vec.magnitude()` here, raising
`ZeroDivisionError` when the centres coincide — embedded as `none`; the
division by `mass + mass` later in the formula likewise raises when the mass
sum is zero), velocities are exchanged along the normal, elasticity is
applied to both, and the particles are pushed apart.  Non-overlapping
particles are untouched. -/
def collide (e : ℝ) (p1 p2 : Particle) : Option (Particle × Particle) :=
  if 0 < overlapAmount p1 p2 then
    if (n_vec p1 p2).magnitude = 0 ∨ p1.mass + p2.mass = 0 then none
    else
      let q1 := applyElasticity e (setVelFromVec p1 (p1_final_vec p1 p2))
      let q2 := applyElasticity e (setVelFromVec p2 (p2_final_vec p1 p2))
      some (pushApart q1 q2)
  else some (p1, p2)

@[simp] lemma recalc_x (p : Particle) (na : ℝ) (c : Option ℝ) :
    (recalc p na c).x = p.x := rfl

@[simp] lemma recalc_y (p : Particle) (na : ℝ) (c : Option ℝ) :
    (recalc p na c).y = p.y := rfl

@[simp] lemma recalc_mass (p : Particle) (na : ℝ) (c : Option ℝ) :
    (recalc p na c).mass = p.mass := rfl

@[simp] lemma recalc_radius (p : Particle) (na : ℝ) (c : Option ℝ) :
    (recalc p na c).radius = p.radius := rfl

@[simp] lemma applyElasticity_x (e : ℝ) (p : Particle) :
    (applyElasticity e p).x = p.x := rfl

@[simp] lemma applyElasticity_y (e : ℝ) (p : Particle) :
    (applyElasticity e p).y = p.y := rfl

@[simp] lemma applyElasticity_mass (e : ℝ) (p : Particle) :
    (applyElasticity e p).mass = p.mass := rfl

@[simp] lemma applyElasticity_radius (e : ℝ) (p : Particle) :
    (applyElasticity e p).radius = p.radius := rfl

@[simp] lemma applyDrag_x (d : ℝ) (p : Particle) : (applyDrag d p).x = p.x := rfl

@[simp] lemma applyDrag_y (d : ℝ) (p : Particle) : (applyDrag d p).y = p.y := rfl

@[simp] lemma applyDrag_mass (d : ℝ) (p : Particle) :
    (applyDrag d p).mass = p.mass := rfl

@[simp] lemma applyDrag_radius (d : ℝ) (p : Particle) :
    (applyDrag d p).radius = p.radius := rfl

@[simp] lemma setVelFromVec_x (p : Particle) (v : Vec) :
    (setVelFromVec p v).x = p.x := rfl

@[simp] lemma setVelFromVec_y (p : Particle) (v : Vec) :
    (setVelFromVec p v).y = p.y := rfl

@[simp] lemma setVelFromVec_mass (p : Particle) (v : Vec) :
    (setVelFromVec p v).mass = p.mass := rfl

@[simp] lemma setVelFromVec_radius (p : Particle) (v : Vec) :
    (setVelFromVec p v).radius = p.radius := rfl

lemma bounce_mass (e w h : ℝ) (p : Particle) : (bounce e w h p).mass = p.mass := by
  unfold bounce
  split_ifs <;> rfl

lemma bounce_radius (e w h : ℝ) (p : Particle) :
    (bounce e w h p).radius = p.radius := by
  unfold bounce
  split_ifs <;> rfl

lemma move_mass (e d w h : ℝ) (p : Particle) : (move e d w h p).mass = p.mass := by
  unfold move
  rw [applyDrag_mass, bounce_mass]

lemma move_radius (e d w h : ℝ) (p : Particle) :
    (move e d w h p).radius = p.radius := by
  unfold move
  rw [applyDrag_radius, bounce_radius]

@[simp] lemma pushApart_fst_mass (p1 p2 : Particle) :
    (pushApart p1 p2).1.mass = p1.mass := rfl

@[simp] lemma pushApart_snd_mass (p1 p2 : Particle) :
    (pushApart p1 p2).2.mass = p2.mass := rfl

@[simp] lemma pushApart_fst_radius (p1 p2 : Particle) :
    (pushApart p1 p2).1.radius = p1.radius := rfl

@[simp] lemma pushApart_snd_radius (p1 p2 : Particle) :
    (pushApart p1 p2).2.radius = p2.radius := rfl

/-- Embeds `Simulation._select_particle(coords)`: scan the particle list in order;
the first particle containing the click point becomes the selection and the
scan stops (early `return`); when no particle matches, the previous
selection is left in place. -/
def selectParticle : List Particle → ℝ × ℝ → Option Particle → Option Particle
  | [], _, sel => sel
  | p :: rest, coords, sel =>
    if hypot (coords.1 - p.x) (coords.2 - p.y) ≤ p.radius then some p
    else selectParticle rest coords sel

/-- Inner loop of `Simulation._handle_events`: collide a (just moved)
particle with every later particle in order, threading the state of both. -/
def collideAll (e : ℝ) (p : Particle) :
    List Particle → Option (Particle × List Particle)
  | [] => some (p, [])
  | q :: rest =>
    match collide e p q with
    | none => none
    | some (p', q') =>
      match collideAll e p' rest with
      | none => none
      | some (p'', rest') => some (p'', q' :: rest')

/-- Embeds `Simulation._handle_events` (without a selected particle): each particle
in turn moves and then collides with every particle after it in the list.
The recursion is driven by a fuel argument equal to the list length — the
collision pass preserves the length, so the fuel never runs out. -/
def handleEventsAux (e d w h : ℝ) : ℕ → List Particle → Option (List Particle)
  | _, [] => some []
  | 0, _ :: _ => none
  | n + 1, p :: rest =>
    let p1 := move e d w h p
    match collideAll e p1 rest with
    | none => none
    | some (p2, rest2) =>
      match handleEventsAux e d w h n rest2 with
      | none => none
      | some rest3 => some (p2 :: rest3)

/-- One tick of the `2D_Collisions.py` world: `none` models a Python
exception escaping `_handle_events`. -/
def handleEvents (e d w h : ℝ) (ps : List Particle) : Option (List Particle) :=
  handleEventsAux e d w h ps.length ps

end Sim2D

namespace My2

/-! ### `my_physics2.py` -/

/-- Constant `SPEED_COEFFICIENT = 0.1`. -/
def SPEED_COEFFICIENT : ℝ := 0.1

/-- Constant `DRAG_COEFFICIENT = 0.9999`. -/
def DRAG_COEFFICIENT : ℝ := 0.9999

/-- Constant `ELASTICITY_COEFFICIENT = 0.999`. -/
def ELASTICITY_COEFFICIENT : ℝ := 0.999

/-- Constant `GRAVITY = 0.000002`. -/
def GRAVITY : ℝ := 0.000002

/-- Class `Particle` of `my_physics2.py`: no mass, no cached velocity
components — the state is position, radius, angle and speed. -/
@[ext] structure Particle where
  x : ℝ
  y : ℝ
  radius : ℝ
  angle : ℝ
  speed : ℝ

/-- Embeds `Particle.__init__`: store everything as given, no validation. -/
def particleInit (position : ℝ × ℝ) (radius angle speed : ℝ) : Particle :=
  { x := position.1, y := position.2, radius := radius,
    angle := angle, speed := speed }

/-- Embeds `Particle.apply_elasticity`. -/
def applyElasticity (e : ℝ) (p : Particle) : Particle :=
  { p with speed := p.speed * e }

/-- Embeds `Particle._apply_drag`. -/
def applyDrag (d : ℝ) (p : Particle) : Particle :=
  { p with speed := p.speed * d }

/-- Embeds `Particle._apply_gravity`: vector-sum the velocity with the constant
gravity vector `(cos(-π/2), sin(-π/2)) * GRAVITY` and renormalise to
(angle, speed) form. -/
def applyGravity (g : ℝ) (p : Particle) : Particle :=
  let px := Real.cos p.angle * p.speed
  let py := Real.sin p.angle * p.speed
  let gx := Real.cos (-(Real.pi / 2)) * g
  let gy := Real.sin (-(Real.pi / 2)) * g
  let nx := px + gx
  let ny := py + gy
  { p with angle := atan2 ny nx, speed := hypot nx ny }

/-- Embeds `Particle.move`: drag, gravity, then translate with a flipped y axis
(`dy = -sin angle`). -/
def move (d g : ℝ) (p : Particle) : Particle :=
  let p1 := applyGravity g (applyDrag d p)
  { p1 with
    x := p1.x + Real.cos p1.angle * p1.speed
    y := p1.y - Real.sin p1.angle * p1.speed }

/-- Embeds `Particle.bounce(window_dimensions)`: one `if/elif` chain for the x
walls followed by a second, independent `if/elif` chain for the y walls, so
a corner hit resolves both axes (and applies elasticity twice). -/
def bounce (e w h : ℝ) (p : Particle) : Particle :=
  let p1 :=
    if p.x ≤ p.radius then
      applyElasticity e
        { p with angle := Real.pi - p.angle, x := p.x + 2 * (p.radius - p.x) }
    else if p.x ≥ w - p.radius then
      applyElasticity e
        { p with angle := Real.pi - p.angle, x := p.x - 2 * (p.x + p.radius - w) }
    else p
  if p1.y ≤ p1.radius then
    applyElasticity e
      { p1 with angle := -p1.angle, y := p1.y + 2 * (p1.radius - p1.y) }
  else if p1.y ≥ h - p1.radius then
    applyElasticity e
      { p1 with angle := -p1.angle, y := p1.y - 2 * (p1.y + p1.radius - h) }
  else p1

/-- The distance computed at the head of `Particle.collide`:
`hypot (x₁-x₂) (-(y₁-y₂))` (the y difference is negated for the flipped
screen axis; the value is the ordinary euclidean distance). -/
def distBetween (p1 p2 : Particle) : ℝ :=
  hypot (p1.x - p2.x) (-(p1.y - p2.y))

/-- Embeds `Particle.collide(p2)`: when the distance is at most the radius sum,
reflect both angles about the collision tangent, swap speeds, split the
overlap evenly to separate the particles, and apply elasticity to both.
Total — `atan2(0, 0) = 0` in Python, so nothing can be raised here. -/
def collide (e : ℝ) (p1 p2 : Particle) : Particle × Particle :=
  let dx := p1.x - p2.x
  let dy := -(p1.y - p2.y)
  let dist := hypot dx dy
  if dist ≤ p1.radius + p2.radius then
    let angleCollision := atan2 dy dx
    let tangentAngle := angleCollision + Real.pi / 2
    let overlapAmnt := p1.radius + p2.radius - dist
    let q1 :=
      { p1 with
        angle := -p1.angle + 2 * tangentAngle
        speed := p2.speed
        x := p1.x + Real.cos angleCollision * overlapAmnt / 2
        y := p1.y - Real.sin angleCollision * overlapAmnt / 2 }
    let q2 :=
      { p2 with
        angle := -p2.angle + 2 * tangentAngle
        speed := p1.speed
        x := p2.x - Real.cos angleCollision * overlapAmnt / 2
        y := p2.y + Real.sin angleCollision * overlapAmnt / 2 }
    (applyElasticity e q1, applyElasticity e q2)
  else (p1, p2)

/-- Embeds `Particle.follow(mouse_coords)`. -/
def follow (coords : ℝ × ℝ) (p : Particle) : Particle :=
  let dx := coords.1 - p.x
  let dy := -(coords.2 - p.y)
  { p with speed := hypot dx dy * SPEED_COEFFICIENT, angle := atan2 dy dx }

/-- The velocity x component a `my_physics2.py` particle moves with. -/
def velX (p : Particle) : ℝ := Real.cos p.angle * p.speed

/-- The velocity y component (screen axis, as used by `move`). -/
def velY (p : Particle) : ℝ := -(Real.sin p.angle * p.speed)

/-- Embeds `Simulation._select_particle(mouse_coordinates)`: scan the whole list;
every particle containing the click point overwrites the selection, so the
last match wins; with no match the previous selection stays. -/
def selectParticle (ps : List Particle) (coords : ℝ × ℝ)
    (sel : Option Particle) : Option Particle :=
  ps.foldl
    (fun acc p =>
      if hypot (coords.1 - p.x) (coords.2 - p.y) ≤ p.radius then some p
      else acc)
    sel

@[simp] lemma applyElasticityX (e : ℝ) (p : Particle) :
    (applyElasticity e p).x = p.x := rfl

@[simp] lemma applyElasticityY (e : ℝ) (p : Particle) :
    (applyElasticity e p).y = p.y := rfl

@[simp] lemma applyElasticityRadius (e : ℝ) (p : Particle) :
    (applyElasticity e p).radius = p.radius := rfl

@[simp] lemma applyElasticityAngle (e : ℝ) (p : Particle) :
    (applyElasticity e p).angle = p.angle := rfl

@[simp] lemma applyElasticitySpeed (e : ℝ) (p : Particle) :
    (applyElasticity e p).speed = p.speed * e := rfl

@[simp] lemma applyDragRadius (d : ℝ) (p : Particle) :
    (applyDrag d p).radius = p.radius := rfl

@[simp] lemma applyGravity_x (g : ℝ) (p : Particle) :
    (applyGravity g p).x = p.x := rfl

@[simp] lemma applyGravity_y (g : ℝ) (p : Particle) :
    (applyGravity g p).y = p.y := rfl

@[simp] lemma applyGravity_radius (g : ℝ) (p : Particle) :
    (applyGravity g p).radius = p.radius := rfl

lemma bounceRadius (e w h : ℝ) (p : Particle) :
    (bounce e w h p).radius = p.radius := by
  unfold bounce
  dsimp only
  split_ifs <;> rfl

lemma moveRadius (d g : ℝ) (p : Particle) : (move d g p).radius = p.radius := rfl

end My2

/-- Modelled from the spec: the selection query
`findBodyAt(point) -> handle | none` — "returns the first body (in
collection order) whose distance from `point` is ≤ its radius", `none`
otherwise.  Used to compare the two `_select_particle` implementations
against the spec's words. -/
def findBodyAt : List Sim2D.Particle → ℝ × ℝ → Option Sim2D.Particle
  | [], _ => none
  | p :: rest, coords =>
    if hypot (coords.1 - p.x) (coords.2 - p.y) ≤ p.radius then some p
    else findBodyAt rest coords

/-- Modelled from the spec, for the `my_physics2.py` particle type. -/
def findBodyAtMy2 : List My2.Particle → ℝ × ℝ → Option My2.Particle
  | [], _ => none
  | p :: rest, coords =>
    if hypot (coords.1 - p.x) (coords.2 - p.y) ≤ p.radius then some p
    else findBodyAtMy2 rest coords

/-! ### Claim C8 — construction performs no validation -/

/-- C8 counterexample: constructing a particle with negative radius and
negative mass succeeds and stores the values verbatim — no `ValidationError`
exists anywhere in the source, contradicting the claim that construction
with non-positive radius/mass fails. -/
theorem construction_accepts_nonpositive_radius :
    (Sim2D.particleInit (100, 100) (-2) (-1) 0 0 (255, 190, 190)).radius = -1
    ∧ (Sim2D.particleInit (100, 100) (-2) (-1) 0 0 (255, 190, 190)).mass = -2
    ∧ (My2.particleInit (100, 100) (-1) 0 0).radius = -1 :=
  ⟨rfl, rfl, rfl⟩

/-- C8 amended: body construction performs no validation at all — every
numeric input (including non-positive radius or mass) is accepted and stored
as given, the velocity components are derived from `speed` and `angle`, and
construction never fails (it is a total function, so it cannot disturb any
existing world state). -/
theorem construction_stores_inputs_verbatim
    (pos : ℝ × ℝ) (m r s a : ℝ) (c : ℝ × ℝ × ℝ) (r' a' s' : ℝ) :
    (Sim2D.particleInit pos m r s a c).x = pos.1
    ∧ (Sim2D.particleInit pos m r s a c).y = pos.2
    ∧ (Sim2D.particleInit pos m r s a c).mass = m
    ∧ (Sim2D.particleInit pos m r s a c).radius = r
    ∧ (Sim2D.particleInit pos m r s a c).speed = s
    ∧ (Sim2D.particleInit pos m r s a c).angle = a
    ∧ (Sim2D.particleInit pos m r s a c).vx = Real.cos a * s
    ∧ (Sim2D.particleInit pos m r s a c).vy = Real.sin a * s
    ∧ (My2.particleInit pos r' a' s').x = pos.1
    ∧ (My2.particleInit pos r' a' s').y = pos.2
    ∧ (My2.particleInit pos r' a' s').radius = r'
    ∧ (My2.particleInit pos r' a' s').angle = a'
    ∧ (My2.particleInit pos r' a' s').speed = s' :=
  ⟨rfl, rfl, rfl, rfl, rfl, rfl, rfl, rfl, rfl, rfl, rfl, rfl, rfl⟩

/-! ### Claim C4 — left-wall reflection scenario -/

/-- C4: a body at (5,50) with radius 5 moving left (angle π) at speed 2 in
an 800×800 bound: one boundary reflection flips the angle to `π - angle`,
leaves the x position at exactly 5, and multiplies the speed by the
elasticity coefficient — in both implementations. -/
theorem reflect_off_left_wall_scenario :
    (Sim2D.bounce Sim2D.ELASTICITY_COEFFICIENT 800 800
        (Sim2D.particleInit (5, 50) 1 5 2 Real.pi (255, 190, 190))).angle
      = Real.pi - Real.pi
    ∧ (Sim2D.bounce Sim2D.ELASTICITY_COEFFICIENT 800 800
        (Sim2D.particleInit (5, 50) 1 5 2 Real.pi (255, 190, 190))).x = 5
    ∧ (Sim2D.bounce Sim2D.ELASTICITY_COEFFICIENT 800 800
        (Sim2D.particleInit (5, 50) 1 5 2 Real.pi (255, 190, 190))).speed
      = 2 * Sim2D.ELASTICITY_COEFFICIENT
    ∧ (My2.bounce My2.ELASTICITY_COEFFICIENT 800 800
        (My2.particleInit (5, 50) 5 Real.pi 2)).angle = Real.pi - Real.pi
    ∧ (My2.bounce My2.ELASTICITY_COEFFICIENT 800 800
        (My2.particleInit (5, 50) 5 Real.pi 2)).x = 5
    ∧ (My2.bounce My2.ELASTICITY_COEFFICIENT 800 800
        (My2.particleInit (5, 50) 5 Real.pi 2)).speed
      = 2 * My2.ELASTICITY_COEFFICIENT := by
  norm_num [Sim2D.bounce, Sim2D.particleInit, Sim2D.applyElasticity,
    Sim2D.recalc, Sim2D.ELASTICITY_COEFFICIENT, My2.bounce, My2.particleInit,
    My2.applyElasticity, My2.ELASTICITY_COEFFICIENT]

/-! ### Claim C3 — corner hit: one axis vs both axes -/

/-- C3: a particle at (3,3) with radius 5 overlaps both the left and the top
wall of an 800×800 window.  `2D_Collisions.py`'s `_bounce` is a single
`if/elif` chain, so it corrects only the y axis and leaves `x = 3`, still
inside the wall (`x < radius`); `my_physics2.py`'s `bounce` uses two
independent chains and corrects both axes (`x = 7` and `y = 7`). -/
theorem corner_bounce_single_vs_both_axes (e : ℝ) :
    (Sim2D.bounce e 800 800 (Sim2D.particleInit (3, 3) 1 5 0 0 (255, 190, 190))).x = 3
    ∧ (Sim2D.bounce e 800 800 (Sim2D.particleInit (3, 3) 1 5 0 0 (255, 190, 190))).y = 7
    ∧ (Sim2D.bounce e 800 800 (Sim2D.particleInit (3, 3) 1 5 0 0 (255, 190, 190))).x
      < (Sim2D.bounce e 800 800 (Sim2D.particleInit (3, 3) 1 5 0 0 (255, 190, 190))).radius
    ∧ (My2.bounce e 800 800 (My2.particleInit (3, 3) 5 0 0)).x = 7
    ∧ (My2.bounce e 800 800 (My2.particleInit (3, 3) 5 0 0)).y = 7 := by
  norm_num [Sim2D.bounce, Sim2D.particleInit, Sim2D.applyElasticity,
    Sim2D.recalc, My2.bounce, My2.particleInit, My2.applyElasticity]

/-! ### Claim C5 — selection query -/

@[simp] lemma hypot_zero : hypot 0 0 = 0 := by
  simp [hypot]

/-- C5 counterexample: with two bodies both containing the click point,
`my_physics2.py`'s `_select_particle` keeps scanning and returns the LAST
matching body, not the first one that the spec's `findBodyAt` names. -/
theorem selection_returns_last_match_not_first :
    My2.selectParticle
        [My2.particleInit (0, 0) 1 0 0, My2.particleInit (0, 0) 2 0 0]
        (0, 0) none
      = some (My2.particleInit (0, 0) 2 0 0)
    ∧ findBodyAtMy2
        [My2.particleInit (0, 0) 1 0 0, My2.particleInit (0, 0) 2 0 0] (0, 0)
      = some (My2.particleInit (0, 0) 1 0 0)
    ∧ My2.particleInit (0, 0) 2 0 0 ≠ My2.particleInit (0, 0) 1 0 0 := by
  refine ⟨?_, ?_, ?_⟩
  · norm_num [My2.selectParticle, My2.particleInit]
  · norm_num [findBodyAtMy2, My2.particleInit]
  · norm_num [My2.particleInit, My2.Particle.ext_iff]

lemma findBodyAtMy2_append (l1 l2 : List My2.Particle) (coords : ℝ × ℝ) :
    findBodyAtMy2 (l1 ++ l2) coords
      = (findBodyAtMy2 l1 coords).elim (findBodyAtMy2 l2 coords) some := by
  induction l1 with
  | nil => simp [findBodyAtMy2]
  | cons p rest ih =>
    simp only [List.cons_append, findBodyAtMy2]
    split_ifs with h
    · rfl
    · exact ih

/-- C5 amended: `2D_Collisions.py`'s `_select_particle` returns the first
body (in collection order) containing the point — exactly the spec's
`findBodyAt` — while `my_physics2.py`'s returns the last such body; in both,
when no body contains the point the previous selection is retained rather
than cleared to `none`.  Neither query mutates any body. -/
theorem selection_first_match_vs_last_match :
    (∀ (ps : List Sim2D.Particle) (coords : ℝ × ℝ) (sel : Option Sim2D.Particle),
      Sim2D.selectParticle ps coords sel = (findBodyAt ps coords).elim sel some)
    ∧ (∀ (ps : List My2.Particle) (coords : ℝ × ℝ) (sel : Option My2.Particle),
      My2.selectParticle ps coords sel
        = (findBodyAtMy2 ps.reverse coords).elim sel some) := by
  constructor
  · intro ps coords sel
    induction ps with
    | nil => simp [Sim2D.selectParticle, findBodyAt]
    | cons p rest ih =>
      simp only [Sim2D.selectParticle, findBodyAt]
      split_ifs with h
      · rfl
      · exact ih
  · intro ps coords sel
    induction ps generalizing sel with
    | nil => simp [My2.selectParticle, findBodyAtMy2]
    | cons p rest ih =>
      have hsel : My2.selectParticle (p :: rest) coords sel
          = My2.selectParticle rest coords
              (if hypot (coords.1 - p.x) (coords.2 - p.y) ≤ p.radius then some p
               else sel) := rfl
      rw [hsel, ih, List.reverse_cons, findBodyAtMy2_append]
      cases hfind : findBodyAtMy2 rest.reverse coords with
      | some q => simp
      | none =>
        simp only [Option.elim]
        split_ifs with h
        · simp [findBodyAtMy2, h]
        · simp [findBodyAtMy2, h]

/-! ### Claim C1 — coincident centres raise during a tick -/

/-- C1: a world of two validly constructed particles whose centres coincide
raises `ZeroDivisionError` inside `Vector.unit` during the collision pass of
the tick (`none` in this embedding) — the degenerate normal is NOT guarded
by a fallback axis in `2D_Collisions.py`. -/
theorem tick_raises_on_coincident_centers (e d : ℝ) :
    Sim2D.handleEvents e d 800 800
      [Sim2D.particleInit (100, 100) 1 5 0 0 (255, 190, 190),
       Sim2D.particleInit (100, 100) 1 5 0 0 (255, 190, 190)] = none := by
  norm_num [Sim2D.handleEvents, Sim2D.handleEventsAux, Sim2D.move,
    Sim2D.bounce, Sim2D.applyDrag, Sim2D.applyElasticity, Sim2D.recalc,
    Sim2D.particleInit, Sim2D.collideAll, Sim2D.collide, Sim2D.overlapAmount,
    Sim2D.n_vec, Sim2D.Vec.magnitude]

/-! ### Claim C10 — mass and radius are never mutated -/

/-- C10: every simulation operation on a particle — integration (`move`),
target seeking (`follow`), boundary reflection (`bounce`), positional
separation (`_push_apart`) and pairwise collision resolution (`collide`) —
leaves the `mass` and `radius` fields unchanged, in both implementations
(`my_physics2.py` particles carry no mass field at all). -/
theorem mass_radius_never_mutated :
    (∀ (e d w h : ℝ) (p : Sim2D.Particle),
      (Sim2D.move e d w h p).mass = p.mass
      ∧ (Sim2D.move e d w h p).radius = p.radius)
    ∧ (∀ (coords : ℝ × ℝ) (p : Sim2D.Particle),
      (Sim2D.follow coords p).mass = p.mass
      ∧ (Sim2D.follow coords p).radius = p.radius)
    ∧ (∀ (e w h : ℝ) (p : Sim2D.Particle),
      (Sim2D.bounce e w h p).mass = p.mass
      ∧ (Sim2D.bounce e w h p).radius = p.radius)
    ∧ (∀ (p1 p2 : Sim2D.Particle),
      (Sim2D.pushApart p1 p2).1.mass = p1.mass
      ∧ (Sim2D.pushApart p1 p2).1.radius = p1.radius
      ∧ (Sim2D.pushApart p1 p2).2.mass = p2.mass
      ∧ (Sim2D.pushApart p1 p2).2.radius = p2.radius)
    ∧ (∀ (e : ℝ) (p1 p2 : Sim2D.Particle),
      (Sim2D.collide e p1 p2).map (fun q => (q.1.mass, q.1.radius, q.2.mass, q.2.radius))
        = (Sim2D.collide e p1 p2).map (fun _ => (p1.mass, p1.radius, p2.mass, p2.radius)))
    ∧ (∀ (d g : ℝ) (p : My2.Particle), (My2.move d g p).radius = p.radius)
    ∧ (∀ (e w h : ℝ) (p : My2.Particle), (My2.bounce e w h p).radius = p.radius)
    ∧ (∀ (e : ℝ) (p1 p2 : My2.Particle),
      (My2.collide e p1 p2).1.radius = p1.radius
      ∧ (My2.collide e p1 p2).2.radius = p2.radius)
    ∧ (∀ (coords : ℝ × ℝ) (p : My2.Particle),
      (My2.follow coords p).radius = p.radius) := by
  refine ⟨?_, ?_, ?_, ?_, ?_, ?_, ?_, ?_, ?_⟩
  · exact fun e d w h p => ⟨Sim2D.move_mass e d w h p, Sim2D.move_radius e d w h p⟩
  · exact fun coords p => ⟨rfl, rfl⟩
  · exact fun e w h p => ⟨Sim2D.bounce_mass e w h p, Sim2D.bounce_radius e w h p⟩
  · exact fun p1 p2 => ⟨rfl, rfl, rfl, rfl⟩
  · intro e p1 p2
    unfold Sim2D.collide
    split_ifs <;> simp
  · exact fun d g p => My2.moveRadius d g p
  · exact fun e w h p => My2.bounceRadius e w h p
  · intro e p1 p2
    unfold My2.collide
    dsimp only
    split_ifs <;> exact ⟨rfl, rfl⟩
  · exact fun coords p => rfl

/-! ### Geometry helpers for the separation claims -/

/-- Evaluate `hypot` at inputs whose square sum is a known square. -/
lemma hypot_eval {x y r : ℝ} (hr : 0 ≤ r) (h : x ^ 2 + y ^ 2 = r ^ 2) :
    hypot x y = r := by
  rw [hypot, h, Real.sqrt_sq hr]

lemma atan2_zero_neg {x : ℝ} (hx : x < 0) : atan2 0 x = Real.pi := by
  rw [atan2]
  have hmk : (⟨x, 0⟩ : ℂ) = ((x : ℝ) : ℂ) := by
    apply Complex.ext <;> simp
  rw [hmk]
  exact Complex.arg_ofReal_of_neg hx

lemma atan2_zero_zero : atan2 0 0 = 0 := by
  rw [atan2]
  have hmk : (⟨0, 0⟩ : ℂ) = (0 : ℂ) := by
    apply Complex.ext <;> simp
  rw [hmk]
  exact Complex.arg_zero

/-- Moving two points symmetrically apart along their connecting direction:
each end moves by `m` along the unit vector, so the separation grows from
`d` to `d + 2m`. -/
lemma hypot_shifted (dx dy m : ℝ) (h0 : hypot dx dy ≠ 0)
    (hm : 0 ≤ hypot dx dy + 2 * m) :
    hypot (dx + dx / hypot dx dy * m * 2) (dy + dy / hypot dx dy * m * 2)
      = hypot dx dy + 2 * m := by
  have hd2 : dx ^ 2 + dy ^ 2 = hypot dx dy ^ 2 := (hypot_sq dx dy).symm
  have key : (dx + dx / hypot dx dy * m * 2) ^ 2
      + (dy + dy / hypot dx dy * m * 2) ^ 2 = (hypot dx dy + 2 * m) ^ 2 := by
    field_simp
    linear_combination (hypot dx dy + 2 * m) ^ 2 * hd2
  rw [hypot, key, Real.sqrt_sq hm]

/-- Fact: `_push_apart` moves EACH particle by the full overlap amount, so the
distance between the centres changes from `d` to `d + 2 * overlap`. -/
lemma pushApart_dist (p1 p2 : Sim2D.Particle)
    (h0 : hypot (p1.x - p2.x) (p1.y - p2.y) ≠ 0)
    (hm : 0 ≤ hypot (p1.x - p2.x) (p1.y - p2.y) + 2 * Sim2D.overlapAmount p1 p2) :
    hypot ((Sim2D.pushApart p1 p2).1.x - (Sim2D.pushApart p1 p2).2.x)
        ((Sim2D.pushApart p1 p2).1.y - (Sim2D.pushApart p1 p2).2.y)
      = hypot (p1.x - p2.x) (p1.y - p2.y) + 2 * Sim2D.overlapAmount p1 p2 := by
  have hcos := cos_atan2 h0
  have hsin := sin_atan2 (p1.x - p2.x) (p1.y - p2.y)
  unfold Sim2D.pushApart
  dsimp only
  rw [hcos, hsin]
  have hx : p1.x + (p1.x - p2.x) / hypot (p1.x - p2.x) (p1.y - p2.y)
        * Sim2D.overlapAmount p1 p2
      - (p2.x - (p1.x - p2.x) / hypot (p1.x - p2.x) (p1.y - p2.y)
        * Sim2D.overlapAmount p1 p2)
      = (p1.x - p2.x) + (p1.x - p2.x) / hypot (p1.x - p2.x) (p1.y - p2.y)
        * Sim2D.overlapAmount p1 p2 * 2 := by ring
  have hy : p1.y + (p1.y - p2.y) / hypot (p1.x - p2.x) (p1.y - p2.y)
        * Sim2D.overlapAmount p1 p2
      - (p2.y - (p1.y - p2.y) / hypot (p1.x - p2.x) (p1.y - p2.y)
        * Sim2D.overlapAmount p1 p2)
      = (p1.y - p2.y) + (p1.y - p2.y) / hypot (p1.x - p2.x) (p1.y - p2.y)
        * Sim2D.overlapAmount p1 p2 * 2 := by ring
  rw [hx, hy]
  exact hypot_shifted _ _ _ h0 hm

/-- Distance between the centres right after `Particle.collide` of
`2D_Collisions.py`, in the genuinely colliding, non-degenerate case. -/
lemma collide_dist (e : ℝ) (p1 p2 : Sim2D.Particle)
    (hov : 0 < Sim2D.overlapAmount p1 p2)
    (h0 : hypot (p1.x - p2.x) (p1.y - p2.y) ≠ 0)
    (hmass : p1.mass + p2.mass ≠ 0) :
    (Sim2D.collide e p1 p2).map (fun q => hypot (q.1.x - q.2.x) (q.1.y - q.2.y))
      = some (hypot (p1.x - p2.x) (p1.y - p2.y) + 2 * Sim2D.overlapAmount p1 p2) := by
  have hmag : ¬((Sim2D.n_vec p1 p2).magnitude = 0 ∨ p1.mass + p2.mass = 0) := by
    push_neg
    exact ⟨h0, hmass⟩
  unfold Sim2D.collide
  rw [if_pos hov, if_neg hmag]
  dsimp only
  rw [Option.map_some']
  have hm : 0 ≤ hypot (p1.x - p2.x) (p1.y - p2.y) + 2 * Sim2D.overlapAmount p1 p2 := by
    have h1 := hypot_nonneg (p1.x - p2.x) (p1.y - p2.y)
    linarith
  exact congrArg some (pushApart_dist _ _ h0 hm)


/-- Variant of `hypot_shifted` phrased through `cos/sin (atan2 _ _)` exactly
as the source writes it; also covers coincident centres, where
`atan2 0 0 = 0` silently picks the x axis. -/
lemma hypot_pushed (dx dy k : ℝ) (hk : 0 ≤ hypot dx dy + 2 * k)
    (hk0 : hypot dx dy = 0 → 0 ≤ k) :
    hypot (dx + Real.cos (atan2 dy dx) * k * 2)
        (dy + Real.sin (atan2 dy dx) * k * 2)
      = hypot dx dy + 2 * k := by
  by_cases h0 : hypot dx dy = 0
  · obtain ⟨hx, hy⟩ := hypot_eq_zero_iff.mp h0
    subst hx
    subst hy
    have h2k : 0 ≤ 2 * k := by
      have := hk0 h0
      linarith
    rw [atan2_zero_zero, Real.cos_zero, Real.sin_zero, hypot_zero,
      show (0:ℝ) + 1 * k * 2 = 2 * k from by ring,
      show (0:ℝ) + 0 * k * 2 = 0 from by ring,
      hypot_eval h2k (by ring), zero_add]
  · rw [cos_atan2 h0, sin_atan2]
    exact hypot_shifted dx dy k h0 hk

/-- Distance between the centres right after `Particle.collide` of
`my_physics2.py`: the overlap is split evenly between the two particles, so
the new centre distance is exactly the radius sum. -/
lemma my2_collide_dist (e : ℝ) (p1 p2 : My2.Particle)
    (hle : My2.distBetween p1 p2 ≤ p1.radius + p2.radius) :
    My2.distBetween (My2.collide e p1 p2).1 (My2.collide e p1 p2).2
      = p1.radius + p2.radius := by
  unfold My2.distBetween at hle
  unfold My2.collide
  dsimp only
  rw [if_pos hle]
  dsimp only [My2.applyElasticity]
  unfold My2.distBetween
  dsimp only
  set dx := p1.x - p2.x with hdx
  set dy := -(p1.y - p2.y) with hdy
  set d := hypot dx dy with hd
  set θ := atan2 dy dx with hθ
  set ov := p1.radius + p2.radius - d with hov
  have harg1 : p1.x + Real.cos θ * ov / 2 - (p2.x - Real.cos θ * ov / 2)
      = dx + Real.cos θ * (ov / 2) * 2 := by
    rw [hdx]; ring
  have harg2 : -(p1.y - Real.sin θ * ov / 2 - (p2.y + Real.sin θ * ov / 2))
      = dy + Real.sin θ * (ov / 2) * 2 := by
    rw [hdy]; ring
  rw [harg1, harg2, hθ]
  have hdn : 0 ≤ d := hd ▸ hypot_nonneg dx dy
  have hk : 0 ≤ hypot dx dy + 2 * (ov / 2) := by
    rw [← hd, hov]
    linarith
  have hk0 : hypot dx dy = 0 → 0 ≤ ov / 2 := by
    intro hz
    rw [hov]
    have hd0 : d = 0 := hd.trans hz
    rw [hd0]
    linarith
  rw [hypot_pushed dx dy (ov / 2) hk hk0, ← hd, hov]
  ring

/-! ### Claim C2 — separation distance after resolve -/

/-- C2 counterexample: bodies at (0,0) and (8,0), radii 5 (overlap 2).
After `2D_Collisions.py`'s `collide`, the distance between the centres is
12, not the claimed radius sum 10: `_push_apart` moves EACH body by the full
overlap, adding `2 * overlap` of separation instead of `overlap`. -/
theorem resolve_distance_exceeds_radius_sum :
    (Sim2D.collide Sim2D.ELASTICITY_COEFFICIENT
        (Sim2D.particleInit (0, 0) 1 5 0 0 (255, 190, 190))
        (Sim2D.particleInit (8, 0) 1 5 0 0 (255, 190, 190))).map
        (fun q => hypot (q.1.x - q.2.x) (q.1.y - q.2.y))
      = some 12
    ∧ (Sim2D.particleInit (0, 0) 1 5 0 0 (255, 190, 190)).radius
        + (Sim2D.particleInit (8, 0) 1 5 0 0 (255, 190, 190)).radius = 10
    ∧ (12 : ℝ) ≠ 10 := by
  have hd8 : hypot ((Sim2D.particleInit (0, 0) 1 5 0 0 (255, 190, 190)).x
        - (Sim2D.particleInit (8, 0) 1 5 0 0 (255, 190, 190)).x)
      ((Sim2D.particleInit (0, 0) 1 5 0 0 (255, 190, 190)).y
        - (Sim2D.particleInit (8, 0) 1 5 0 0 (255, 190, 190)).y) = 8 :=
    hypot_eval (by norm_num) (by norm_num [Sim2D.particleInit])
  have hov : Sim2D.overlapAmount
      (Sim2D.particleInit (0, 0) 1 5 0 0 (255, 190, 190))
      (Sim2D.particleInit (8, 0) 1 5 0 0 (255, 190, 190)) = 2 := by
    unfold Sim2D.overlapAmount
    rw [hd8]
    norm_num [Sim2D.particleInit]
  refine ⟨?_, by norm_num [Sim2D.particleInit], by norm_num⟩
  rw [collide_dist _ _ _ (by rw [hov]; norm_num) (by rw [hd8]; norm_num)
    (by norm_num [Sim2D.particleInit]), hd8, hov]
  norm_num

/-- C2 amended: the positional correction is asymmetric between the two
implementations.  In `2D_Collisions.py` each body is displaced by the FULL
overlap, so the total added separation is `2 * overlap` and the
post-`collide` distance is `(radius sum) + overlap`; in `my_physics2.py`
each body is displaced by `overlap / 2`, the total added separation is
exactly `overlap`, and the post-`collide` distance is exactly the radius
sum. -/
theorem separation_distance_after_resolve :
    (∀ (e : ℝ) (p1 p2 : Sim2D.Particle),
      0 < Sim2D.overlapAmount p1 p2 →
      hypot (p1.x - p2.x) (p1.y - p2.y) ≠ 0 →
      p1.mass + p2.mass ≠ 0 →
      (Sim2D.collide e p1 p2).map (fun q => hypot (q.1.x - q.2.x) (q.1.y - q.2.y))
        = some ((p1.radius + p2.radius) + Sim2D.overlapAmount p1 p2))
    ∧ (∀ (e : ℝ) (p1 p2 : My2.Particle),
      My2.distBetween p1 p2 ≤ p1.radius + p2.radius →
      My2.distBetween (My2.collide e p1 p2).1 (My2.collide e p1 p2).2
        = p1.radius + p2.radius) := by
  constructor
  · intro e p1 p2 hov h0 hmass
    rw [collide_dist e p1 p2 hov h0 hmass]
    congr 1
    unfold Sim2D.overlapAmount
    ring
  · exact my2_collide_dist

/-- C2 amended, witness: the bodies at (0,0) and (8,0) with radii 5 from
the counterexample, for both implementations. -/
theorem separation_distance_after_resolve_witness :
    (Sim2D.collide 1
        (Sim2D.particleInit (0, 0) 1 5 0 0 (255, 190, 190))
        (Sim2D.particleInit (8, 0) 1 5 0 0 (255, 190, 190))).map
        (fun q => hypot (q.1.x - q.2.x) (q.1.y - q.2.y))
      = some (((Sim2D.particleInit (0, 0) 1 5 0 0 (255, 190, 190)).radius
          + (Sim2D.particleInit (8, 0) 1 5 0 0 (255, 190, 190)).radius)
          + Sim2D.overlapAmount (Sim2D.particleInit (0, 0) 1 5 0 0 (255, 190, 190))
              (Sim2D.particleInit (8, 0) 1 5 0 0 (255, 190, 190)))
    ∧ My2.distBetween
        (My2.collide 1 (My2.particleInit (0, 0) 5 0 0)
          (My2.particleInit (8, 0) 5 0 0)).1
        (My2.collide 1 (My2.particleInit (0, 0) 5 0 0)
          (My2.particleInit (8, 0) 5 0 0)).2
      = (My2.particleInit (0, 0) 5 0 0).radius
        + (My2.particleInit (8, 0) 5 0 0).radius := by
  constructor
  · refine separation_distance_after_resolve.1 1 _ _ ?_ ?_ ?_
    · have hd8 : hypot ((Sim2D.particleInit (0, 0) 1 5 0 0 (255, 190, 190)).x
            - (Sim2D.particleInit (8, 0) 1 5 0 0 (255, 190, 190)).x)
          ((Sim2D.particleInit (0, 0) 1 5 0 0 (255, 190, 190)).y
            - (Sim2D.particleInit (8, 0) 1 5 0 0 (255, 190, 190)).y) = 8 :=
        hypot_eval (by norm_num) (by norm_num [Sim2D.particleInit])
      unfold Sim2D.overlapAmount
      rw [hd8]
      norm_num [Sim2D.particleInit]
    · have hd8 : hypot ((Sim2D.particleInit (0, 0) 1 5 0 0 (255, 190, 190)).x
            - (Sim2D.particleInit (8, 0) 1 5 0 0 (255, 190, 190)).x)
          ((Sim2D.particleInit (0, 0) 1 5 0 0 (255, 190, 190)).y
            - (Sim2D.particleInit (8, 0) 1 5 0 0 (255, 190, 190)).y) = 8 :=
        hypot_eval (by norm_num) (by norm_num [Sim2D.particleInit])
      rw [hd8]
      norm_num
    · norm_num [Sim2D.particleInit]
  · refine separation_distance_after_resolve.2 1 _ _ ?_
    have hd8 : hypot ((My2.particleInit (0, 0) 5 0 0).x
          - (My2.particleInit (8, 0) 5 0 0).x)
        (-((My2.particleInit (0, 0) 5 0 0).y
          - (My2.particleInit (8, 0) 5 0 0).y)) = 8 :=
      hypot_eval (by norm_num) (by norm_num [My2.particleInit])
    unfold My2.distBetween
    rw [hd8]
    norm_num [My2.particleInit]

/-! ### Claim C9 — bounds containment after a tick -/

/-- C9 counterexample: a validly constructed single-particle world (centre
(400,400) inside the 800×800 bounds, radius 5, finite speed 1200 moving
left).  After ONE completed tick the centre sits at x = 810, outside
`[radius, 800 - radius]`: the bounce mirrors the overshoot, and an overshoot
larger than `dimension - 2*radius` lands beyond the opposite wall. -/
theorem tick_can_leave_body_out_of_bounds :
    (Sim2D.handleEvents 0.8 0.9999 800 800
        [Sim2D.particleInit (400, 400) 1 5 1200 Real.pi (255, 190, 190)]).map
        (List.map Sim2D.Particle.x)
      = some [810]
    ∧ (Sim2D.handleEvents 0.8 0.9999 800 800
        [Sim2D.particleInit (400, 400) 1 5 1200 Real.pi (255, 190, 190)]).map
        (List.map Sim2D.Particle.radius)
      = some [5]
    ∧ ¬((810 : ℝ) ≤ 800 - 5) := by
  refine ⟨?_, ?_, by norm_num⟩ <;>
    norm_num [Sim2D.handleEvents, Sim2D.handleEventsAux, Sim2D.collideAll,
      Sim2D.move, Sim2D.bounce, Sim2D.applyDrag, Sim2D.applyElasticity,
      Sim2D.recalc, Sim2D.particleInit, Real.cos_pi, Real.sin_pi]

/-- One tick of a single-body world is exactly `move` for that body. -/
lemma tick_singleton (e d w h : ℝ) (p : Sim2D.Particle) :
    Sim2D.handleEvents e d w h [p] = some [Sim2D.move e d w h p] := by
  simp [Sim2D.handleEvents, Sim2D.handleEventsAux, Sim2D.collideAll]

/-- Position after `move` when the integrated position hits the top wall:
the y overshoot is mirrored, x is untouched. -/
lemma move_top_wall (e d w h : ℝ) (p : Sim2D.Particle)
    (h1 : p.y + p.vy ≤ p.radius) :
    (Sim2D.move e d w h p).x = p.x + p.vx
    ∧ (Sim2D.move e d w h p).y = 2 * p.radius - (p.y + p.vy) := by
  constructor
  · unfold Sim2D.move
    rw [Sim2D.applyDrag_x]
    unfold Sim2D.bounce
    dsimp only
    rw [if_pos h1]
    rfl
  · unfold Sim2D.move
    rw [Sim2D.applyDrag_y]
    unfold Sim2D.bounce
    dsimp only
    rw [if_pos h1]
    dsimp only [Sim2D.applyElasticity_y]
    ring

/-- Position after `move` when the integrated position hits the bottom
wall. -/
lemma move_bottom_wall (e d w h : ℝ) (p : Sim2D.Particle)
    (h1 : ¬(p.y + p.vy ≤ p.radius)) (h2 : p.y + p.vy ≥ h - p.radius) :
    (Sim2D.move e d w h p).x = p.x + p.vx
    ∧ (Sim2D.move e d w h p).y = 2 * (h - p.radius) - (p.y + p.vy) := by
  constructor
  · unfold Sim2D.move
    rw [Sim2D.applyDrag_x]
    unfold Sim2D.bounce
    dsimp only
    rw [if_neg h1, if_pos h2]
    rfl
  · unfold Sim2D.move
    rw [Sim2D.applyDrag_y]
    unfold Sim2D.bounce
    dsimp only
    rw [if_neg h1, if_pos h2]
    dsimp only [Sim2D.applyElasticity_y]
    ring

/-- Position after `move` when the integrated position hits the left
wall. -/
lemma move_left_wall (e d w h : ℝ) (p : Sim2D.Particle)
    (h1 : ¬(p.y + p.vy ≤ p.radius)) (h2 : ¬(p.y + p.vy ≥ h - p.radius))
    (h3 : p.x + p.vx ≤ p.radius) :
    (Sim2D.move e d w h p).x = 2 * p.radius - (p.x + p.vx)
    ∧ (Sim2D.move e d w h p).y = p.y + p.vy := by
  constructor
  · unfold Sim2D.move
    rw [Sim2D.applyDrag_x]
    unfold Sim2D.bounce
    dsimp only
    rw [if_neg h1, if_neg h2, if_pos h3]
    dsimp only [Sim2D.applyElasticity_x]
    ring
  · unfold Sim2D.move
    rw [Sim2D.applyDrag_y]
    unfold Sim2D.bounce
    dsimp only
    rw [if_neg h1, if_neg h2, if_pos h3]
    rfl

/-- Position after `move` when the integrated position hits the right
wall. -/
lemma move_right_wall (e d w h : ℝ) (p : Sim2D.Particle)
    (h1 : ¬(p.y + p.vy ≤ p.radius)) (h2 : ¬(p.y + p.vy ≥ h - p.radius))
    (h3 : ¬(p.x + p.vx ≤ p.radius)) (h4 : p.x + p.vx ≥ w - p.radius) :
    (Sim2D.move e d w h p).x = 2 * (w - p.radius) - (p.x + p.vx)
    ∧ (Sim2D.move e d w h p).y = p.y + p.vy := by
  constructor
  · unfold Sim2D.move
    rw [Sim2D.applyDrag_x]
    unfold Sim2D.bounce
    dsimp only
    rw [if_neg h1, if_neg h2, if_neg h3, if_pos h4]
    dsimp only [Sim2D.applyElasticity_x]
    ring
  · unfold Sim2D.move
    rw [Sim2D.applyDrag_y]
    unfold Sim2D.bounce
    dsimp only
    rw [if_neg h1, if_neg h2, if_neg h3, if_pos h4]
    rfl

/-- C9 amended: containment does NOT hold in general (see the
counterexample); what the reflection algorithm does guarantee is the
single-wall case, for each of the four walls: when the integrated position
crosses exactly that wall, with the other axis inside its bounds and an
overshoot of at most `dimension - 2*radius`, the completed tick puts the
centre back inside `[radius, dimension - radius]` on both axes. -/
theorem single_wall_bounce_restores_containment :
    (∀ (e d w h : ℝ) (p : Sim2D.Particle),
      p.y + p.vy ≤ p.radius →
      2 * p.radius - (p.y + p.vy) ≤ h - p.radius →
      p.radius ≤ p.x + p.vx → p.x + p.vx ≤ w - p.radius →
      ∃ q, Sim2D.handleEvents e d w h [p] = some [q]
        ∧ p.radius ≤ q.x ∧ q.x ≤ w - p.radius
        ∧ p.radius ≤ q.y ∧ q.y ≤ h - p.radius)
    ∧ (∀ (e d w h : ℝ) (p : Sim2D.Particle),
      p.radius < p.y + p.vy →
      h - p.radius ≤ p.y + p.vy →
      p.radius ≤ 2 * (h - p.radius) - (p.y + p.vy) →
      p.radius ≤ p.x + p.vx → p.x + p.vx ≤ w - p.radius →
      ∃ q, Sim2D.handleEvents e d w h [p] = some [q]
        ∧ p.radius ≤ q.x ∧ q.x ≤ w - p.radius
        ∧ p.radius ≤ q.y ∧ q.y ≤ h - p.radius)
    ∧ (∀ (e d w h : ℝ) (p : Sim2D.Particle),
      p.radius < p.y + p.vy →
      p.y + p.vy < h - p.radius →
      p.x + p.vx ≤ p.radius →
      2 * p.radius - (p.x + p.vx) ≤ w - p.radius →
      ∃ q, Sim2D.handleEvents e d w h [p] = some [q]
        ∧ p.radius ≤ q.x ∧ q.x ≤ w - p.radius
        ∧ p.radius ≤ q.y ∧ q.y ≤ h - p.radius)
    ∧ (∀ (e d w h : ℝ) (p : Sim2D.Particle),
      p.radius < p.y + p.vy →
      p.y + p.vy < h - p.radius →
      p.radius < p.x + p.vx →
      w - p.radius ≤ p.x + p.vx →
      p.radius ≤ 2 * (w - p.radius) - (p.x + p.vx) →
      ∃ q, Sim2D.handleEvents e d w h [p] = some [q]
        ∧ p.radius ≤ q.x ∧ q.x ≤ w - p.radius
        ∧ p.radius ≤ q.y ∧ q.y ≤ h - p.radius) := by
  refine ⟨?_, ?_, ?_, ?_⟩
  · intro e d w h p h1 h2 h3 h4
    obtain ⟨hx, hy⟩ := move_top_wall e d w h p h1
    exact ⟨Sim2D.move e d w h p, tick_singleton e d w h p,
      by rw [hx]; linarith, by rw [hx]; linarith,
      by rw [hy]; linarith, by rw [hy]; linarith⟩
  · intro e d w h p h1 h2 h3 h4 h5
    obtain ⟨hx, hy⟩ := move_bottom_wall e d w h p (not_le.mpr h1) h2
    exact ⟨Sim2D.move e d w h p, tick_singleton e d w h p,
      by rw [hx]; linarith, by rw [hx]; linarith,
      by rw [hy]; linarith, by rw [hy]; linarith⟩
  · intro e d w h p h1 h2 h3 h4
    obtain ⟨hx, hy⟩ := move_left_wall e d w h p (not_le.mpr h1)
      (not_le.mpr h2) h3
    exact ⟨Sim2D.move e d w h p, tick_singleton e d w h p,
      by rw [hx]; linarith, by rw [hx]; linarith,
      by rw [hy]; linarith, by rw [hy]; linarith⟩
  · intro e d w h p h1 h2 h3 h4 h5
    obtain ⟨hx, hy⟩ := move_right_wall e d w h p (not_le.mpr h1)
      (not_le.mpr h2) (not_le.mpr h3) h4
    exact ⟨Sim2D.move e d w h p, tick_singleton e d w h p,
      by rw [hx]; linarith, by rw [hx]; linarith,
      by rw [hy]; linarith, by rw [hy]; linarith⟩

/-- C9 amended, witness: one concrete particle per wall of the 800×800
bound — (50,5) moving down-screen-up (angle -π/2) for the top wall, (50,795)
at angle π/2 for the bottom wall, (5,50) moving left for the left wall, and
(795,50) moving right for the right wall — each stays inside the bounds
through a full tick. -/
theorem single_wall_bounce_restores_containment_witness :
    (∃ q, Sim2D.handleEvents 0.8 0.9999 800 800
        [Sim2D.particleInit (50, 5) 1 5 2 (-(Real.pi / 2)) (255, 190, 190)] = some [q]
      ∧ (Sim2D.particleInit (50, 5) 1 5 2 (-(Real.pi / 2)) (255, 190, 190)).radius ≤ q.x
      ∧ q.x ≤ 800 - (Sim2D.particleInit (50, 5) 1 5 2 (-(Real.pi / 2)) (255, 190, 190)).radius
      ∧ (Sim2D.particleInit (50, 5) 1 5 2 (-(Real.pi / 2)) (255, 190, 190)).radius ≤ q.y
      ∧ q.y ≤ 800 - (Sim2D.particleInit (50, 5) 1 5 2 (-(Real.pi / 2)) (255, 190, 190)).radius)
    ∧ (∃ q, Sim2D.handleEvents 0.8 0.9999 800 800
        [Sim2D.particleInit (50, 795) 1 5 2 (Real.pi / 2) (255, 190, 190)] = some [q]
      ∧ (Sim2D.particleInit (50, 795) 1 5 2 (Real.pi / 2) (255, 190, 190)).radius ≤ q.x
      ∧ q.x ≤ 800 - (Sim2D.particleInit (50, 795) 1 5 2 (Real.pi / 2) (255, 190, 190)).radius
      ∧ (Sim2D.particleInit (50, 795) 1 5 2 (Real.pi / 2) (255, 190, 190)).radius ≤ q.y
      ∧ q.y ≤ 800 - (Sim2D.particleInit (50, 795) 1 5 2 (Real.pi / 2) (255, 190, 190)).radius)
    ∧ (∃ q, Sim2D.handleEvents 0.8 0.9999 800 800
        [Sim2D.particleInit (5, 50) 1 5 2 Real.pi (255, 190, 190)] = some [q]
      ∧ (Sim2D.particleInit (5, 50) 1 5 2 Real.pi (255, 190, 190)).radius ≤ q.x
      ∧ q.x ≤ 800 - (Sim2D.particleInit (5, 50) 1 5 2 Real.pi (255, 190, 190)).radius
      ∧ (Sim2D.particleInit (5, 50) 1 5 2 Real.pi (255, 190, 190)).radius ≤ q.y
      ∧ q.y ≤ 800 - (Sim2D.particleInit (5, 50) 1 5 2 Real.pi (255, 190, 190)).radius)
    ∧ (∃ q, Sim2D.handleEvents 0.8 0.9999 800 800
        [Sim2D.particleInit (795, 50) 1 5 2 0 (255, 190, 190)] = some [q]
      ∧ (Sim2D.particleInit (795, 50) 1 5 2 0 (255, 190, 190)).radius ≤ q.x
      ∧ q.x ≤ 800 - (Sim2D.particleInit (795, 50) 1 5 2 0 (255, 190, 190)).radius
      ∧ (Sim2D.particleInit (795, 50) 1 5 2 0 (255, 190, 190)).radius ≤ q.y
      ∧ q.y ≤ 800 - (Sim2D.particleInit (795, 50) 1 5 2 0 (255, 190, 190)).radius) :=
  ⟨single_wall_bounce_restores_containment.1 0.8 0.9999 800 800
      (Sim2D.particleInit (50, 5) 1 5 2 (-(Real.pi / 2)) (255, 190, 190))
      (by norm_num [Sim2D.particleInit, Real.sin_pi_div_two, Real.cos_pi_div_two])
      (by norm_num [Sim2D.particleInit, Real.sin_pi_div_two, Real.cos_pi_div_two])
      (by norm_num [Sim2D.particleInit, Real.sin_pi_div_two, Real.cos_pi_div_two])
      (by norm_num [Sim2D.particleInit, Real.sin_pi_div_two, Real.cos_pi_div_two]),
   single_wall_bounce_restores_containment.2.1 0.8 0.9999 800 800
      (Sim2D.particleInit (50, 795) 1 5 2 (Real.pi / 2) (255, 190, 190))
      (by norm_num [Sim2D.particleInit, Real.sin_pi_div_two, Real.cos_pi_div_two])
      (by norm_num [Sim2D.particleInit, Real.sin_pi_div_two, Real.cos_pi_div_two])
      (by norm_num [Sim2D.particleInit, Real.sin_pi_div_two, Real.cos_pi_div_two])
      (by norm_num [Sim2D.particleInit, Real.sin_pi_div_two, Real.cos_pi_div_two])
      (by norm_num [Sim2D.particleInit, Real.sin_pi_div_two, Real.cos_pi_div_two]),
   single_wall_bounce_restores_containment.2.2.1 0.8 0.9999 800 800
      (Sim2D.particleInit (5, 50) 1 5 2 Real.pi (255, 190, 190))
      (by norm_num [Sim2D.particleInit, Real.sin_pi])
      (by norm_num [Sim2D.particleInit, Real.sin_pi])
      (by norm_num [Sim2D.particleInit, Real.cos_pi])
      (by norm_num [Sim2D.particleInit, Real.cos_pi]),
   single_wall_bounce_restores_containment.2.2.2 0.8 0.9999 800 800
      (Sim2D.particleInit (795, 50) 1 5 2 0 (255, 190, 190))
      (by norm_num [Sim2D.particleInit])
      (by norm_num [Sim2D.particleInit])
      (by norm_num [Sim2D.particleInit])
      (by norm_num [Sim2D.particleInit])
      (by norm_num [Sim2D.particleInit])⟩

/-! ### Claim C6 — momentum conservation with elasticity 1 -/

@[simp] lemma pushApart_fst_vx (p1 p2 : Sim2D.Particle) :
    (Sim2D.pushApart p1 p2).1.vx = p1.vx := rfl

@[simp] lemma pushApart_fst_vy (p1 p2 : Sim2D.Particle) :
    (Sim2D.pushApart p1 p2).1.vy = p1.vy := rfl

@[simp] lemma pushApart_snd_vx (p1 p2 : Sim2D.Particle) :
    (Sim2D.pushApart p1 p2).2.vx = p2.vx := rfl

@[simp] lemma pushApart_snd_vy (p1 p2 : Sim2D.Particle) :
    (Sim2D.pushApart p1 p2).2.vy = p2.vy := rfl

/-- The magnitude of the tangent vector equals that of the normal vector. -/
lemma t_vec_mag (p1 p2 : Sim2D.Particle) :
    (Sim2D.t_vec p1 p2).magnitude = (Sim2D.n_vec p1 p2).magnitude := by
  unfold Sim2D.t_vec Sim2D.Vec.magnitude
  dsimp only
  unfold hypot
  congr 1
  ring

/-- With elasticity coefficient 1, the (angle, speed) round trip performed
at the end of `collide` reproduces the final velocity vector exactly. -/
lemma vel_after_setVel_one (p : Sim2D.Particle) (v : Sim2D.Vec) :
    (Sim2D.applyElasticity 1 (Sim2D.setVelFromVec p v)).vx = v.1
    ∧ (Sim2D.applyElasticity 1 (Sim2D.setVelFromVec p v)).vy = v.2 := by
  unfold Sim2D.applyElasticity Sim2D.setVelFromVec Sim2D.recalc
  dsimp only
  rw [if_neg one_ne_zero]
  constructor
  · rw [mul_one]
    exact cos_atan2_mul_hypot v.1 v.2
  · rw [mul_one]
    exact sin_atan2_mul_hypot v.1 v.2

/-- The recomposed final velocity vectors of `collide` conserve total
momentum, component-wise. -/
lemma final_vec_momentum (p1 p2 : Sim2D.Particle)
    (h0 : (Sim2D.n_vec p1 p2).magnitude ≠ 0)
    (hm : p1.mass + p2.mass ≠ 0) :
    p1.mass * (Sim2D.p1_final_vec p1 p2).1 + p2.mass * (Sim2D.p2_final_vec p1 p2).1
      = p1.mass * p1.vx + p2.mass * p2.vx
    ∧ p1.mass * (Sim2D.p1_final_vec p1 p2).2 + p2.mass * (Sim2D.p2_final_vec p1 p2).2
      = p1.mass * p1.vy + p2.mass * p2.vy := by
  have hmag2 : (Sim2D.n_vec p1 p2).magnitude ^ 2
      = (Sim2D.n_vec p1 p2).1 ^ 2 + (Sim2D.n_vec p1 p2).2 ^ 2 :=
    hypot_sq (Sim2D.n_vec p1 p2).1 (Sim2D.n_vec p1 p2).2
  unfold Sim2D.p1_final_vec Sim2D.p2_final_vec Sim2D.p1_final_norm_comp
    Sim2D.p2_final_norm_comp Sim2D.Vec.unit Sim2D.Vec.dot Sim2D.Vec.smul
    Sim2D.Vec.vadd Sim2D.initialVec
  dsimp only
  rw [t_vec_mag,
    show (Sim2D.t_vec p1 p2).1 = -(Sim2D.n_vec p1 p2).2 from rfl,
    show (Sim2D.t_vec p1 p2).2 = (Sim2D.n_vec p1 p2).1 from rfl]
  simp only [neg_div]
  set u := (Sim2D.n_vec p1 p2).1 / (Sim2D.n_vec p1 p2).magnitude with hu_def
  set v := (Sim2D.n_vec p1 p2).2 / (Sim2D.n_vec p1 p2).magnitude with hv_def
  have hu : u ^ 2 + v ^ 2 = 1 := by
    rw [hu_def, hv_def]
    field_simp
    linear_combination hmag2.symm
  constructor
  · field_simp
    linear_combination (p1.mass * p1.vx + p2.mass * p2.vx) * (p1.mass + p2.mass) * hu
  · field_simp
    linear_combination (p1.mass * p1.vy + p2.mass * p2.vy) * (p1.mass + p2.mass) * hu

/-- C6: with elasticity coefficient 1 (drag plays no part in `collide`),
`2D_Collisions.py`'s pairwise resolution conserves total momentum
`Σ mass * velocity` exactly, component-wise, for any two bodies with
positive masses and distinct centres (overlapping or not). -/
theorem momentum_conserved_when_elastic (a b : Sim2D.Particle)
    (hma : 0 < a.mass) (hmb : 0 < b.mass)
    (hd : hypot (a.x - b.x) (a.y - b.y) ≠ 0) :
    ∃ q1 q2, Sim2D.collide 1 a b = some (q1, q2)
      ∧ a.mass * q1.vx + b.mass * q2.vx = a.mass * a.vx + b.mass * b.vx
      ∧ a.mass * q1.vy + b.mass * q2.vy = a.mass * a.vy + b.mass * b.vy := by
  have hm : a.mass + b.mass ≠ 0 := by positivity
  by_cases hov : 0 < Sim2D.overlapAmount a b
  · have hmag : ¬((Sim2D.n_vec a b).magnitude = 0 ∨ a.mass + b.mass = 0) := by
      push_neg
      exact ⟨hd, hm⟩
    have hcol : Sim2D.collide 1 a b
        = some (Sim2D.pushApart
            (Sim2D.applyElasticity 1 (Sim2D.setVelFromVec a (Sim2D.p1_final_vec a b)))
            (Sim2D.applyElasticity 1 (Sim2D.setVelFromVec b (Sim2D.p2_final_vec a b)))) := by
      unfold Sim2D.collide
      rw [if_pos hov, if_neg hmag]
    refine ⟨_, _, hcol, ?_, ?_⟩
    · dsimp only
      rw [(vel_after_setVel_one a (Sim2D.p1_final_vec a b)).1,
        (vel_after_setVel_one b (Sim2D.p2_final_vec a b)).1]
      exact (final_vec_momentum a b hd hm).1
    · dsimp only
      rw [(vel_after_setVel_one a (Sim2D.p1_final_vec a b)).2,
        (vel_after_setVel_one b (Sim2D.p2_final_vec a b)).2]
      exact (final_vec_momentum a b hd hm).2
  · refine ⟨a, b, ?_, rfl, rfl⟩
    unfold Sim2D.collide
    rw [if_neg hov]

/-- C6 witness: equal unit masses at (0,0) and (8,0), radii 5 (overlap 2),
one moving right at speed 3 (angle 0), the other at rest. -/
theorem momentum_conserved_when_elastic_witness :
    ∃ q1 q2,
      Sim2D.collide 1 (Sim2D.particleInit (0, 0) 1 5 3 0 (255, 190, 190))
          (Sim2D.particleInit (8, 0) 1 5 0 0 (255, 190, 190))
        = some (q1, q2)
      ∧ (Sim2D.particleInit (0, 0) 1 5 3 0 (255, 190, 190)).mass * q1.vx
          + (Sim2D.particleInit (8, 0) 1 5 0 0 (255, 190, 190)).mass * q2.vx
        = (Sim2D.particleInit (0, 0) 1 5 3 0 (255, 190, 190)).mass
            * (Sim2D.particleInit (0, 0) 1 5 3 0 (255, 190, 190)).vx
          + (Sim2D.particleInit (8, 0) 1 5 0 0 (255, 190, 190)).mass
            * (Sim2D.particleInit (8, 0) 1 5 0 0 (255, 190, 190)).vx
      ∧ (Sim2D.particleInit (0, 0) 1 5 3 0 (255, 190, 190)).mass * q1.vy
          + (Sim2D.particleInit (8, 0) 1 5 0 0 (255, 190, 190)).mass * q2.vy
        = (Sim2D.particleInit (0, 0) 1 5 3 0 (255, 190, 190)).mass
            * (Sim2D.particleInit (0, 0) 1 5 3 0 (255, 190, 190)).vy
          + (Sim2D.particleInit (8, 0) 1 5 0 0 (255, 190, 190)).mass
            * (Sim2D.particleInit (8, 0) 1 5 0 0 (255, 190, 190)).vy :=
  momentum_conserved_when_elastic
    (Sim2D.particleInit (0, 0) 1 5 3 0 (255, 190, 190))
    (Sim2D.particleInit (8, 0) 1 5 0 0 (255, 190, 190))
    (by norm_num [Sim2D.particleInit])
    (by norm_num [Sim2D.particleInit])
    (by
      rw [show hypot ((Sim2D.particleInit (0, 0) 1 5 3 0 (255, 190, 190)).x
            - (Sim2D.particleInit (8, 0) 1 5 0 0 (255, 190, 190)).x)
          ((Sim2D.particleInit (0, 0) 1 5 3 0 (255, 190, 190)).y
            - (Sim2D.particleInit (8, 0) 1 5 0 0 (255, 190, 190)).y) = 8 from
        hypot_eval (by norm_num) (by norm_num [Sim2D.particleInit])]
      norm_num)

/-! ### Claim C7 — symmetry of resolve in its argument order -/

lemma overlap_comm (a b : Sim2D.Particle) :
    Sim2D.overlapAmount b a = Sim2D.overlapAmount a b := by
  unfold Sim2D.overlapAmount
  rw [show hypot (b.x - a.x) (b.y - a.y) = hypot (a.x - b.x) (a.y - b.y) from by
    unfold hypot; congr 1; ring]
  ring

lemma nmag_comm (a b : Sim2D.Particle) :
    (Sim2D.n_vec b a).magnitude = (Sim2D.n_vec a b).magnitude := by
  unfold Sim2D.n_vec Sim2D.Vec.magnitude
  dsimp only
  unfold hypot
  congr 1
  ring

lemma final_vec_swap₁ (a b : Sim2D.Particle) :
    Sim2D.p1_final_vec b a = Sim2D.p2_final_vec a b := by
  unfold Sim2D.p1_final_vec Sim2D.p2_final_vec Sim2D.p1_final_norm_comp
    Sim2D.p2_final_norm_comp Sim2D.Vec.unit Sim2D.Vec.dot Sim2D.Vec.smul
    Sim2D.Vec.vadd Sim2D.initialVec
  rw [t_vec_mag b a, t_vec_mag a b, nmag_comm a b,
    show b.mass + a.mass = a.mass + b.mass from add_comm _ _]
  unfold Sim2D.t_vec Sim2D.n_vec
  dsimp only
  rw [Prod.ext_iff]
  constructor <;> (dsimp only; ring)

lemma final_vec_swap₂ (a b : Sim2D.Particle) :
    Sim2D.p2_final_vec b a = Sim2D.p1_final_vec a b := by
  unfold Sim2D.p1_final_vec Sim2D.p2_final_vec Sim2D.p1_final_norm_comp
    Sim2D.p2_final_norm_comp Sim2D.Vec.unit Sim2D.Vec.dot Sim2D.Vec.smul
    Sim2D.Vec.vadd Sim2D.initialVec
  rw [t_vec_mag b a, t_vec_mag a b, nmag_comm a b,
    show b.mass + a.mass = a.mass + b.mass from add_comm _ _]
  unfold Sim2D.t_vec Sim2D.n_vec
  dsimp only
  rw [Prod.ext_iff]
  constructor <;> (dsimp only; ring)

/-- Swapping the arguments of `_push_apart` swaps the results, provided the
centres are distinct (at coincident centres the two orders genuinely
disagree, but `collide` has already raised by then). -/
lemma pushApart_swap (p1 p2 : Sim2D.Particle)
    (h0 : hypot (p1.x - p2.x) (p1.y - p2.y) ≠ 0) :
    Sim2D.pushApart p2 p1 = Prod.swap (Sim2D.pushApart p1 p2) := by
  have hov := overlap_comm p1 p2
  have hcos : Real.cos (atan2 (p2.y - p1.y) (p2.x - p1.x))
      = -Real.cos (atan2 (p1.y - p2.y) (p1.x - p2.x)) := by
    rw [show p2.y - p1.y = -(p1.y - p2.y) from by ring,
      show p2.x - p1.x = -(p1.x - p2.x) from by ring]
    exact cos_atan2_neg h0
  have hsin : Real.sin (atan2 (p2.y - p1.y) (p2.x - p1.x))
      = -Real.sin (atan2 (p1.y - p2.y) (p1.x - p2.x)) := by
    rw [show p2.y - p1.y = -(p1.y - p2.y) from by ring,
      show p2.x - p1.x = -(p1.x - p2.x) from by ring]
    exact sin_atan2_neg (p1.x - p2.x) (p1.y - p2.y)
  unfold Sim2D.pushApart
  dsimp only [Prod.swap]
  rw [hov, hcos, hsin, Prod.ext_iff]
  constructor <;> (ext <;> dsimp only <;> ring)

/-- Fact: `2D_Collisions.py`'s `collide` is fully symmetric in its argument order:
swapping the arguments swaps the outcomes, including the degenerate case
(both orders raise) and the non-overlapping case (both orders do nothing). -/
lemma collide_swap (e : ℝ) (a b : Sim2D.Particle) :
    Sim2D.collide e a b = (Sim2D.collide e b a).map Prod.swap := by
  unfold Sim2D.collide
  rw [overlap_comm a b, nmag_comm a b,
    show b.mass + a.mass = a.mass + b.mass from add_comm _ _]
  split_ifs with h1 h2
  · rfl
  · rw [final_vec_swap₁ a b, final_vec_swap₂ a b, Option.map_some']
    push_neg at h2
    have h0 : hypot (a.x - b.x) (a.y - b.y) ≠ 0 := h2.1
    have h0s : hypot (b.x - a.x) (b.y - a.y) ≠ 0 := by
      rw [show hypot (b.x - a.x) (b.y - a.y) = hypot (a.x - b.x) (a.y - b.y) from by
        unfold hypot; congr 1; ring]
      exact h0
    dsimp only
    rw [pushApart_swap
      (Sim2D.applyElasticity e (Sim2D.setVelFromVec b (Sim2D.p2_final_vec a b)))
      (Sim2D.applyElasticity e (Sim2D.setVelFromVec a (Sim2D.p1_final_vec a b)))
      h0s]
  · rw [Option.map_some']
    rfl

/-- Reflecting about a tangent whose defining angle moved by π leaves the
resulting direction cosines unchanged. -/
lemma cos_tangent_shift (c t s : ℝ) (hc : Real.cos s = -Real.cos t)
    (hs : Real.sin s = -Real.sin t) :
    Real.cos (c + 2 * (s + Real.pi / 2)) = Real.cos (c + 2 * (t + Real.pi / 2)) := by
  rw [show c + 2 * (s + Real.pi / 2) = (c + Real.pi) + 2 * s from by ring,
    show c + 2 * (t + Real.pi / 2) = (c + Real.pi) + 2 * t from by ring]
  simp only [Real.cos_add, Real.sin_add, Real.cos_two_mul, Real.sin_two_mul,
    hc, hs]
  ring

/-- Sine analogue of `cos_tangent_shift`. -/
lemma sin_tangent_shift (c t s : ℝ) (hc : Real.cos s = -Real.cos t)
    (hs : Real.sin s = -Real.sin t) :
    Real.sin (c + 2 * (s + Real.pi / 2)) = Real.sin (c + 2 * (t + Real.pi / 2)) := by
  rw [show c + 2 * (s + Real.pi / 2) = (c + Real.pi) + 2 * s from by ring,
    show c + 2 * (t + Real.pi / 2) = (c + Real.pi) + 2 * t from by ring]
  simp only [Real.cos_add, Real.sin_add, Real.cos_two_mul, Real.sin_two_mul,
    hc, hs]
  ring

/-- Property "identical outcomes with the roles swapped" for `my_physics2.py`'s
`collide`: position, radius, speed, and the velocity vector of each physical
body agree between the two argument orders. -/
def my2SwappedOutcome (e : ℝ) (a b : My2.Particle) : Prop :=
  (My2.collide e a b).1.x = (My2.collide e b a).2.x
  ∧ (My2.collide e a b).1.y = (My2.collide e b a).2.y
  ∧ (My2.collide e a b).1.radius = (My2.collide e b a).2.radius
  ∧ (My2.collide e a b).1.speed = (My2.collide e b a).2.speed
  ∧ My2.velX (My2.collide e a b).1 = My2.velX (My2.collide e b a).2
  ∧ My2.velY (My2.collide e a b).1 = My2.velY (My2.collide e b a).2
  ∧ (My2.collide e a b).2.x = (My2.collide e b a).1.x
  ∧ (My2.collide e a b).2.y = (My2.collide e b a).1.y
  ∧ (My2.collide e a b).2.radius = (My2.collide e b a).1.radius
  ∧ (My2.collide e a b).2.speed = (My2.collide e b a).1.speed
  ∧ My2.velX (My2.collide e a b).2 = My2.velX (My2.collide e b a).1
  ∧ My2.velY (My2.collide e a b).2 = My2.velY (My2.collide e b a).1

lemma my2_collide_swap (e : ℝ) (a b : My2.Particle)
    (hd : My2.distBetween a b ≠ 0) : my2SwappedOutcome e a b := by
  unfold My2.distBetween at hd
  unfold my2SwappedOutcome My2.collide
  dsimp only
  rw [show hypot (b.x - a.x) (-(b.y - a.y)) = hypot (a.x - b.x) (-(a.y - b.y)) from by
      unfold hypot; congr 1; ring,
    show b.radius + a.radius = a.radius + b.radius from add_comm _ _]
  have hcos : Real.cos (atan2 (-(b.y - a.y)) (b.x - a.x))
      = -Real.cos (atan2 (-(a.y - b.y)) (a.x - b.x)) := by
    rw [show -(b.y - a.y) = -(-(a.y - b.y)) from by ring,
      show b.x - a.x = -(a.x - b.x) from by ring]
    exact cos_atan2_neg hd
  have hsin : Real.sin (atan2 (-(b.y - a.y)) (b.x - a.x))
      = -Real.sin (atan2 (-(a.y - b.y)) (a.x - b.x)) := by
    rw [show -(b.y - a.y) = -(-(a.y - b.y)) from by ring,
      show b.x - a.x = -(a.x - b.x) from by ring]
    exact sin_atan2_neg (a.x - b.x) (-(a.y - b.y))
  split_ifs with hle
  · dsimp only [My2.applyElasticity, My2.velX, My2.velY]
    refine ⟨?_, ?_, rfl, rfl, ?_, ?_, ?_, ?_, rfl, rfl, ?_, ?_⟩
    · rw [hcos]; ring
    · rw [hsin]; ring
    · rw [cos_tangent_shift (-a.angle) (atan2 (-(a.y - b.y)) (a.x - b.x))
        (atan2 (-(b.y - a.y)) (b.x - a.x)) hcos hsin]
    · rw [sin_tangent_shift (-a.angle) (atan2 (-(a.y - b.y)) (a.x - b.x))
        (atan2 (-(b.y - a.y)) (b.x - a.x)) hcos hsin]
    · rw [hcos]; ring
    · rw [hsin]; ring
    · rw [cos_tangent_shift (-b.angle) (atan2 (-(a.y - b.y)) (a.x - b.x))
        (atan2 (-(b.y - a.y)) (b.x - a.x)) hcos hsin]
    · rw [sin_tangent_shift (-b.angle) (atan2 (-(a.y - b.y)) (a.x - b.x))
        (atan2 (-(b.y - a.y)) (b.x - a.x)) hcos hsin]
  · exact ⟨rfl, rfl, rfl, rfl, rfl, rfl, rfl, rfl, rfl, rfl, rfl, rfl⟩

/-- C7 counterexample: two fresh copies of the same body (centre (0,0),
radius 1).  In `my_physics2.py`'s `collide` the body passed FIRST ends at
x = 1 while the same physical body passed SECOND ends at x = -1: at exactly
coincident centres the outcome depends on the argument slot, refuting the
claim for every pair of bodies. -/
theorem my2_resolve_asymmetric_at_coincident_centers :
    (My2.collide My2.ELASTICITY_COEFFICIENT (My2.particleInit (0, 0) 1 0 0)
        (My2.particleInit (0, 0) 1 0 0)).1.x = 1
    ∧ (My2.collide My2.ELASTICITY_COEFFICIENT (My2.particleInit (0, 0) 1 0 0)
        (My2.particleInit (0, 0) 1 0 0)).2.x = -1
    ∧ ((1 : ℝ) ≠ -1) := by
  refine ⟨?_, ?_, by norm_num⟩ <;>
    norm_num [My2.collide, My2.particleInit, My2.applyElasticity,
      atan2_zero_zero]

/-- C7 amended: `2D_Collisions.py`'s `collide` is perfectly symmetric in its
argument order on ALL inputs (at coincident centres both orders raise); for
`my_physics2.py`'s `collide` the swapped outcomes (position, radius, speed,
velocity vector of each physical body) agree whenever the centres are
distinct — at exactly coincident centres the separation is pushed along the
first argument's +x direction and the two orders disagree. -/
theorem resolve_symmetric_in_argument_order :
    (∀ (e : ℝ) (a b : Sim2D.Particle),
      Sim2D.collide e a b = (Sim2D.collide e b a).map Prod.swap)
    ∧ (∀ (e : ℝ) (a b : My2.Particle),
      My2.distBetween a b ≠ 0 → my2SwappedOutcome e a b) :=
  ⟨collide_swap, my2_collide_swap⟩

/-- C7 amended, witness: concrete overlapping unequal bodies for the
`2D_Collisions.py` half and distinct-centre bodies for the `my_physics2.py`
half. -/
theorem resolve_symmetric_in_argument_order_witness :
    Sim2D.collide 0.8 (Sim2D.particleInit (0, 0) 1 5 3 0 (255, 190, 190))
        (Sim2D.particleInit (8, 0) 2 5 1 0 (255, 190, 190))
      = (Sim2D.collide 0.8 (Sim2D.particleInit (8, 0) 2 5 1 0 (255, 190, 190))
          (Sim2D.particleInit (0, 0) 1 5 3 0 (255, 190, 190))).map Prod.swap
    ∧ my2SwappedOutcome 0.999 (My2.particleInit (0, 0) 5 0 0)
        (My2.particleInit (8, 0) 5 0 0) :=
  ⟨resolve_symmetric_in_argument_order.1 0.8
      (Sim2D.particleInit (0, 0) 1 5 3 0 (255, 190, 190))
      (Sim2D.particleInit (8, 0) 2 5 1 0 (255, 190, 190)),
   resolve_symmetric_in_argument_order.2 0.999
      (My2.particleInit (0, 0) 5 0 0) (My2.particleInit (8, 0) 5 0 0)
      (by
        unfold My2.distBetween
        rw [show hypot ((My2.particleInit (0, 0) 5 0 0).x
              - (My2.particleInit (8, 0) 5 0 0).x)
            (-((My2.particleInit (0, 0) 5 0 0).y
              - (My2.particleInit (8, 0) 5 0 0).y)) = 8 from
          hypot_eval (by norm_num) (by norm_num [My2.particleInit])]
        norm_num)⟩
